import Mathlib

/-!
Verification of the fuel-app backend against its specification.

The development is a shallow embedding of `src/app.py`, a Flask application
backed by a PostgreSQL store with two tables, `sales` and `customers`.  Rows
are modelled in insertion order (ids are `SERIAL`, so insertion order is the
id order); `REAL` columns are modelled by `ℚ` and `INTEGER` columns by `ℤ`;
`TEXT` columns by `String`.  Each HTTP handler becomes a function from a
typed request record and a store to a response and the store after the
request; read-only report handlers return `Except` (validation error vs
rows) and leave the store untouched.  SQL clauses are embedded as follows:
`INSERT` appends a row, `UPDATE ... WHERE` maps over rows, `rowcount` is the
number of rows matched, `GROUP BY k` produces one row per distinct key via
`List.dedup`, `SUM` is a list sum over the group, `ORDER BY date ASC` sorts
the keys by the order on `String`, and `date BETWEEN a AND b` is the
inclusive comparison `a ≤ date ∧ date ≤ b` on the stored text dates.
-/

namespace FuelApp

/-- Lexicographic comparison of character lists: the order PostgreSQL uses
to compare `TEXT` dates in `BETWEEN` and `ORDER BY` (byte order, which for
ISO-style date strings is chronological order). -/
def charListLe : List Char → List Char → Bool
  | [], _ => true
  | _ :: _, [] => false
  | a :: as, b :: bs => if a = b then charListLe as bs else decide (a < b)

/-- Text comparison on strings, via their character lists. -/
def textLe (a b : String) : Bool :=
  charListLe a.data b.data

/-- The text order as a relation, used as the sort key order of
`ORDER BY date ASC`. -/
def textLeProp (a b : String) : Prop :=
  textLe a b = true

instance : DecidableRel textLeProp :=
  fun a b => instDecidableEqBool (textLe a b) true

/-- The Python expression `data["name"].strip()`: surrounding whitespace
removed from both ends. -/
def pyStrip (s : String) : String :=
  ⟨((s.data.dropWhile Char.isWhitespace).reverse.dropWhile Char.isWhitespace).reverse⟩

/-- A row of the `sales` table (`src/app.py` lines 38-46): fuel type,
quantity, unit price and a textual date. The server-assigned id is the
position in the list. -/
structure Sale where
  fuel_type : String
  quantity : ℚ
  price : ℚ
  date : String
  deriving DecidableEq

/-- A row of the `customers` table (`src/app.py` lines 47-53): a unique name
and a loyalty-points counter. -/
structure Customer where
  name : String
  points : ℤ
  deriving DecidableEq

/-- The persistent store: both tables, rows in insertion order. -/
structure Store where
  sales : List Sale
  customers : List Customer
  deriving DecidableEq

/-- Request body of POST `/api/sales`: each of the four JSON fields may be
absent, mirroring the `field in data` presence checks of `log_sale`. -/
structure SaleReq where
  fuel_type : Option String
  quantity : Option ℚ
  price : Option ℚ
  date : Option String
  deriving DecidableEq

/-- Request body of POST `/api/customers`. -/
structure CustomerReq where
  name : Option String
  deriving DecidableEq

/-- Outcome of the Python conversion `int(data["points"])` applied to the
JSON value supplied for `points` (`src/app.py` line 124): `int n` when the
conversion returns the integer `n` (integers, floats truncated toward zero,
booleans, and numeric strings), `valueError` when it raises `ValueError`
(non-numeric strings), and `typeError` when it raises `TypeError` (`null`,
arrays, objects). Only `ValueError` is caught by the dedicated handler at
line 142; `TypeError` falls through to the generic handler at line 144. -/
inductive PointsVal where
  | int (n : ℤ)
  | valueError
  | typeError
  deriving DecidableEq

/-- Request body of POST `/api/reward`. -/
structure RewardReq where
  name : Option String
  points : Option PointsVal
  deriving DecidableEq

/-- Query parameters of the three report endpoints; absent parameters are
`none` (`request.args.get` default). -/
structure ReportReq where
  filter : Option String
  start_date : Option String
  end_date : Option String
  deriving DecidableEq

/-- Responses of `log_sale`. -/
inductive SaleResp where
  | missingFields
  | created
  deriving DecidableEq

/-- HTTP status of each `log_sale` response (`src/app.py` lines 76, 86). -/
def SaleResp.status : SaleResp → Nat
  | .missingFields => 400
  | .created => 201

/-- Responses of `add_customer`. -/
inductive CustomerResp where
  | missingName
  | alreadyExists
  | added
  deriving DecidableEq

/-- HTTP status of each `add_customer` response (`src/app.py` lines 97,
109, 111). -/
def CustomerResp.status : CustomerResp → Nat
  | .missingName => 400
  | .alreadyExists => 200
  | .added => 201

/-- Responses of `update_rewards`. `serverError` is the generic
`except Exception` handler (`src/app.py` line 144), reached when `int()`
raises `TypeError`. -/
inductive RewardResp where
  | missingFields
  | invalidPoints
  | nonPositive
  | notFound
  | ok
  | serverError
  deriving DecidableEq

/-- HTTP status of each `update_rewards` response (`src/app.py` lines 122,
126, 138, 140, 143, 145). -/
def RewardResp.status : RewardResp → Nat
  | .missingFields => 400
  | .invalidPoints => 400
  | .nonPositive => 400
  | .notFound => 404
  | .ok => 200
  | .serverError => 500

/-- POST `/api/sales` (`src/app.py` lines 70-89): if any of the four
required fields is absent, answer 400; otherwise insert one row with the
supplied values and answer 201. -/
def log_sale (req : SaleReq) (s : Store) : SaleResp × Store :=
  match req.fuel_type, req.quantity, req.price, req.date with
  | some ft, some q, some pr, some d =>
      (.created, ⟨s.sales ++ [⟨ft, q, pr, d⟩], s.customers⟩)
  | _, _, _, _ => (.missingFields, s)

/-- POST `/api/customers` (`src/app.py` lines 92-114): reject an absent or
blank-after-trim name with 400; otherwise `INSERT ... ON CONFLICT (name) DO
NOTHING` with the trimmed name and points defaulting to 0, reporting
`alreadyExists` when `rowcount` is 0. -/
def add_customer (req : CustomerReq) (s : Store) : CustomerResp × Store :=
  match req.name with
  | none => (.missingName, s)
  | some nm =>
      if pyStrip nm = "" then (.missingName, s)
      else if s.customers.any (fun c => c.name == pyStrip nm) then
        (.alreadyExists, s)
      else (.added, ⟨s.sales, s.customers ++ [⟨pyStrip nm, 0⟩]⟩)

/-- POST `/api/reward` (`src/app.py` lines 117-145): presence check on
`name` and `points`, conversion of `points` by `int()`, positivity check,
then `UPDATE customers SET points = points + p WHERE name = nm` with a
404 when `rowcount` is 0. The supplied name is matched exactly, untrimmed. -/
def update_rewards (req : RewardReq) (s : Store) : RewardResp × Store :=
  match req.name, req.points with
  | some nm, some pv =>
      match pv with
      | .valueError => (.invalidPoints, s)
      | .typeError => (.serverError, s)
      | .int p =>
          if p ≤ 0 then (.nonPositive, s)
          else
            let cs := s.customers.map
              (fun c => if c.name = nm then ⟨c.name, c.points + p⟩ else c)
            if (s.customers.filter (fun c => c.name == nm)).length = 0 then
              (.notFound, ⟨s.sales, cs⟩)
            else (.ok, ⟨s.sales, cs⟩)
  | _, _ => (.missingFields, s)

/-- One row of the GET `/api/sales_by_type` answer. -/
structure FuelTypeRow where
  fuel_type : String
  total_quantity : ℚ
  deriving DecidableEq

/-- One row of the GET `/api/sales_over_time` answer. -/
structure TimeRow where
  date : String
  total_sales : ℚ
  deriving DecidableEq

/-- One row of the GET `/api/reports` answer. -/
structure ReportRow where
  fuel_type : String
  total_quantity : ℚ
  total_revenue : ℚ
  deriving DecidableEq

/-- Python truthiness of an optional query parameter: `not x` holds when the
parameter is absent or the empty string. -/
def blankOpt : Option String → Bool
  | none => true
  | some s => s.isEmpty

/-- The validation-error message shared by the three report endpoints
(`src/app.py` lines 163, 197, 234). -/
def errBothDates : String :=
  "Both start_date and end_date are required for custom filter"

/-- HTTP status of a report outcome: 400 on validation failure, 200 on a
row list. -/
def reportStatus {ρ : Type} : Except String ρ → Nat
  | .error _ => 400
  | .ok _ => 200

/-- The SQL predicate `date BETWEEN sd AND ed`: inclusive bounds under the
text order on dates. -/
def saleInRange (sd ed : String) (s : Sale) : Bool :=
  textLe sd s.date && textLe s.date ed

/-- The rows a report aggregates: all sales for the default `alltime`
filter, and the `WHERE date BETWEEN start_date AND end_date` restriction
for the `custom` filter (`src/app.py` lines 161-165 and twins). -/
def matchingSales (req : ReportReq) (l : List Sale) : List Sale :=
  if req.filter.getD "alltime" = "custom" then
    match req.start_date, req.end_date with
    | some sd, some ed => l.filter (saleInRange sd ed)
    | _, _ => l
  else l

/-- `SUM(quantity)` over the group of sales with the given fuel type. -/
def sumQuantityByType (l : List Sale) (ft : String) : ℚ :=
  ((l.filter (fun s => s.fuel_type == ft)).map Sale.quantity).sum

/-- `SUM(quantity * price)` over the group of sales with the given fuel
type. -/
def sumRevenueByType (l : List Sale) (ft : String) : ℚ :=
  ((l.filter (fun s => s.fuel_type == ft)).map (fun s => s.quantity * s.price)).sum

/-- `SUM(quantity * price)` over the group of sales with the given date. -/
def sumRevenueByDate (l : List Sale) (d : String) : ℚ :=
  ((l.filter (fun s => s.date == d)).map (fun s => s.quantity * s.price)).sum

/-- `SELECT fuel_type, SUM(quantity) ... GROUP BY fuel_type`: one row per
distinct fuel type (order not specified by SQL; the embedding fixes the
`dedup` order). -/
def sales_by_type_rows (l : List Sale) : List FuelTypeRow :=
  ((l.map Sale.fuel_type).dedup).map (fun ft => ⟨ft, sumQuantityByType l ft⟩)

/-- `SELECT date, SUM(quantity * price) ... GROUP BY date ORDER BY date
ASC`: one row per distinct date, keys sorted ascending. -/
def sales_over_time_rows (l : List Sale) : List TimeRow :=
  (List.insertionSort textLeProp ((l.map Sale.date).dedup)).map
    (fun d => ⟨d, sumRevenueByDate l d⟩)

/-- `SELECT fuel_type, SUM(quantity), SUM(quantity * price) ... GROUP BY
fuel_type`. -/
def generate_reports_rows (l : List Sale) : List ReportRow :=
  ((l.map Sale.fuel_type).dedup).map
    (fun ft => ⟨ft, sumQuantityByType l ft, sumRevenueByType l ft⟩)

/-- GET `/api/sales_by_type` (`src/app.py` lines 148-180): with the
`custom` filter, a missing or empty bound is a 400 before any store access;
otherwise aggregate the matching sales. -/
def sales_by_type (req : ReportReq) (s : Store) : Except String (List FuelTypeRow) :=
  if req.filter.getD "alltime" = "custom" then
    if blankOpt req.start_date || blankOpt req.end_date then .error errBothDates
    else .ok (sales_by_type_rows (matchingSales req s.sales))
  else .ok (sales_by_type_rows s.sales)

/-- GET `/api/sales_over_time` (`src/app.py` lines 182-214): same
validation, grouped by date, ordered ascending by date. -/
def sales_over_time (req : ReportReq) (s : Store) : Except String (List TimeRow) :=
  if req.filter.getD "alltime" = "custom" then
    if blankOpt req.start_date || blankOpt req.end_date then .error errBothDates
    else .ok (sales_over_time_rows (matchingSales req s.sales))
  else .ok (sales_over_time_rows s.sales)

/-- GET `/api/reports` (`src/app.py` lines 216-252): same validation,
grouped by fuel type with quantity and revenue sums. -/
def generate_reports (req : ReportReq) (s : Store) : Except String (List ReportRow) :=
  if req.filter.getD "alltime" = "custom" then
    if blankOpt req.start_date || blankOpt req.end_date then .error errBothDates
    else .ok (generate_reports_rows (matchingSales req s.sales))
  else .ok (generate_reports_rows s.sales)

/-- Lifecycle events of the database connection during one request. -/
inductive ConnEvent where
  | acquired
  | committed
  | closed
  deriving DecidableEq

/-- Connection events of one `log_sale` request (`src/app.py` lines
70-89), modelled from the source together with the documented psycopg2
context-manager semantics: `with get_db_connection() as conn:` acquires the
connection and on normal exit commits the transaction, but does NOT close
the connection — closing would require an explicit `conn.close()`, which
the handler never issues (contrast `init_db`, lines 32-60, whose
`try/finally` does call `conn.close()`). The validation-failure path
returns before any connection is acquired. -/
def log_sale_conn_events (req : SaleReq) : List ConnEvent :=
  match req.fuel_type, req.quantity, req.price, req.date with
  | some _, some _, some _, some _ => [.acquired, .committed]
  | _, _, _, _ => []

theorem charListLe_total : ∀ as bs : List Char,
    charListLe as bs = true ∨ charListLe bs as = true
  | [], _ => Or.inl rfl
  | _ :: _, [] => Or.inr rfl
  | a :: as, b :: bs => by
      by_cases hab : a = b
      · subst hab
        simpa [charListLe] using charListLe_total as bs
      · rcases lt_or_gt_of_ne hab with h | h
        · exact Or.inl (by simp [charListLe, hab, h])
        · exact Or.inr (by simp [charListLe, Ne.symm hab, h])

theorem charListLe_trans : ∀ as bs cs : List Char,
    charListLe as bs = true → charListLe bs cs = true → charListLe as cs = true
  | [], _, _, _, _ => rfl
  | _ :: _, [], _, h₁, _ => by simp [charListLe] at h₁
  | _ :: _, _ :: _, [], _, h₂ => by simp [charListLe] at h₂
  | a :: as, b :: bs, c :: cs, h₁, h₂ => by
      by_cases hab : a = b <;> by_cases hbc : b = c
      · subst hab; subst hbc
        simp only [charListLe, if_pos rfl] at h₁ h₂ ⊢
        exact charListLe_trans as bs cs h₁ h₂
      · subst hab
        simp only [charListLe, if_neg hbc] at h₂ ⊢
        exact h₂
      · subst hbc
        simp only [charListLe, if_neg hab] at h₁ ⊢
        exact h₁
      · simp only [charListLe, if_neg hab] at h₁
        simp only [charListLe, if_neg hbc] at h₂
        have hac : a < c := lt_trans (by simpa using h₁) (by simpa using h₂)
        simp [charListLe, ne_of_lt hac, hac]

instance : IsTotal String textLeProp :=
  ⟨fun a b => charListLe_total a.data b.data⟩

instance : IsTrans String textLeProp :=
  ⟨fun a b c h₁ h₂ => charListLe_trans a.data b.data c.data h₁ h₂⟩

theorem matchingSales_of_not_custom (req : ReportReq) (l : List Sale)
    (hc : ¬ req.filter.getD "alltime" = "custom") : matchingSales req l = l := by
  unfold matchingSales
  rw [if_neg hc]

theorem sales_over_time_rows_map_date (l : List Sale) :
    (sales_over_time_rows l).map TimeRow.date
      = List.insertionSort textLeProp ((l.map Sale.date).dedup) := by
  simp [sales_over_time_rows, List.map_map, Function.comp_def]

theorem sales_over_time_rows_sorted (l : List Sale) :
    ((sales_over_time_rows l).map TimeRow.date).Sorted textLeProp := by
  rw [sales_over_time_rows_map_date]
  exact List.sorted_insertionSort textLeProp _

theorem sales_over_time_rows_nodup (l : List Sale) :
    ((sales_over_time_rows l).map TimeRow.date).Nodup := by
  rw [sales_over_time_rows_map_date]
  exact ((List.perm_insertionSort textLeProp _).nodup_iff).mpr (List.nodup_dedup _)

theorem sales_over_time_rows_mem_date (l : List Sale) (d : String) :
    d ∈ (sales_over_time_rows l).map TimeRow.date ↔ d ∈ l.map Sale.date := by
  rw [sales_over_time_rows_map_date, (List.perm_insertionSort textLeProp _).mem_iff]
  exact List.mem_dedup

theorem sales_over_time_rows_total (l : List Sale) (r : TimeRow)
    (hr : r ∈ sales_over_time_rows l) : r.total_sales = sumRevenueByDate l r.date := by
  rcases List.mem_map.mp hr with ⟨d, _, rfl⟩
  rfl

theorem sales_over_time_ok (req : ReportReq) (store : Store) (rows : List TimeRow)
    (h : sales_over_time req store = Except.ok rows) :
    rows = sales_over_time_rows (matchingSales req store.sales) := by
  unfold sales_over_time at h
  by_cases hc : req.filter.getD "alltime" = "custom"
  · rw [if_pos hc] at h
    by_cases hb : (blankOpt req.start_date || blankOpt req.end_date) = true
    · rw [if_pos hb] at h
      exact Except.noConfusion h
    · rw [if_neg hb] at h
      exact (Except.ok.inj h).symm
  · rw [if_neg hc] at h
    rw [matchingSales_of_not_custom req store.sales hc]
    exact (Except.ok.inj h).symm

/-- C1: for every set of sales in the store, Totals Over Time (GET
`/api/sales_over_time`) returns one entry per distinct date among the
matching sales (the date list is sorted and duplicate-free, and a date
appears in it exactly when a matching sale carries that date), each entry
carrying as `total_sales` the sum of quantity times price over the matching
sales of that date, and the returned sequence is ordered ascending by
date. -/
theorem C1_sales_over_time_grouped_sorted (req : ReportReq) (store : Store)
    (rows : List TimeRow) (h : sales_over_time req store = Except.ok rows) :
    ((rows.map TimeRow.date).Sorted textLeProp ∧ (rows.map TimeRow.date).Nodup) ∧
    (∀ d : String, d ∈ rows.map TimeRow.date
        ↔ d ∈ (matchingSales req store.sales).map Sale.date) ∧
    (∀ r ∈ rows, r.total_sales = sumRevenueByDate (matchingSales req store.sales) r.date) := by
  have hrows := sales_over_time_ok req store rows h
  subst hrows
  exact ⟨⟨sales_over_time_rows_sorted _, sales_over_time_rows_nodup _⟩,
    fun d => sales_over_time_rows_mem_date _ d,
    fun r hr => sales_over_time_rows_total _ r hr⟩

theorem C1_witness :
    (((sales_over_time_rows (matchingSales (ReportReq.mk none none none)
          (Store.mk [] []).sales)).map TimeRow.date).Sorted textLeProp ∧
      ((sales_over_time_rows (matchingSales (ReportReq.mk none none none)
          (Store.mk [] []).sales)).map TimeRow.date).Nodup) ∧
    (∀ d : String, d ∈ (sales_over_time_rows (matchingSales (ReportReq.mk none none none)
          (Store.mk [] []).sales)).map TimeRow.date
        ↔ d ∈ (matchingSales (ReportReq.mk none none none)
            (Store.mk [] []).sales).map Sale.date) ∧
    (∀ r ∈ sales_over_time_rows (matchingSales (ReportReq.mk none none none)
          (Store.mk [] []).sales),
        r.total_sales = sumRevenueByDate (matchingSales (ReportReq.mk none none none)
          (Store.mk [] []).sales) r.date) :=
  C1_sales_over_time_grouped_sorted (ReportReq.mk none none none) (Store.mk [] [])
    (sales_over_time_rows (matchingSales (ReportReq.mk none none none)
      (Store.mk [] []).sales)) rfl

/-- C3: for each of the three report operations, a request whose filter is
"custom" with `start_date` or `end_date` absent or empty returns the 400
validation error; the outcome is the same for every store, so no store
query is executed. -/
theorem C3_custom_missing_dates (req : ReportReq) (store : Store)
    (hf : req.filter = some "custom")
    (hb : (blankOpt req.start_date || blankOpt req.end_date) = true) :
    sales_by_type req store = Except.error errBothDates ∧
    sales_over_time req store = Except.error errBothDates ∧
    generate_reports req store = Except.error errBothDates ∧
    reportStatus (sales_by_type req store) = 400 ∧
    reportStatus (sales_over_time req store) = 400 ∧
    reportStatus (generate_reports req store) = 400 := by
  have hc : req.filter.getD "alltime" = "custom" := by rw [hf]; rfl
  simp [sales_by_type, sales_over_time, generate_reports, reportStatus, hc, hb]

theorem C3_witness :
    sales_by_type (ReportReq.mk (some "custom") none (some "2024-01-02"))
        (Store.mk [] []) = Except.error errBothDates ∧
    sales_over_time (ReportReq.mk (some "custom") none (some "2024-01-02"))
        (Store.mk [] []) = Except.error errBothDates ∧
    generate_reports (ReportReq.mk (some "custom") none (some "2024-01-02"))
        (Store.mk [] []) = Except.error errBothDates ∧
    reportStatus (sales_by_type (ReportReq.mk (some "custom") none (some "2024-01-02"))
        (Store.mk [] [])) = 400 ∧
    reportStatus (sales_over_time (ReportReq.mk (some "custom") none (some "2024-01-02"))
        (Store.mk [] [])) = 400 ∧
    reportStatus (generate_reports (ReportReq.mk (some "custom") none (some "2024-01-02"))
        (Store.mk [] [])) = 400 :=
  C3_custom_missing_dates (ReportReq.mk (some "custom") none (some "2024-01-02"))
    (Store.mk [] []) rfl rfl

/-- C10: a report request whose filter value is neither "alltime" nor
"custom" behaves exactly as with filter "alltime" on all three report
operations: same answer, no date-range restriction, and no validation
error. -/
theorem C10_unknown_filter_acts_as_alltime (req : ReportReq) (store : Store)
    (f : String) (hf : req.filter = some f)
    (h1 : f ≠ "alltime") (h2 : f ≠ "custom") :
    (sales_by_type req store
      = sales_by_type (ReportReq.mk (some "alltime") req.start_date req.end_date) store ∧
    sales_over_time req store
      = sales_over_time (ReportReq.mk (some "alltime") req.start_date req.end_date) store ∧
    generate_reports req store
      = generate_reports (ReportReq.mk (some "alltime") req.start_date req.end_date) store) ∧
    (sales_by_type req store = Except.ok (sales_by_type_rows store.sales) ∧
    sales_over_time req store = Except.ok (sales_over_time_rows store.sales) ∧
    generate_reports req store = Except.ok (generate_reports_rows store.sales)) := by
  have hc : ¬ req.filter.getD "alltime" = "custom" := by rw [hf]; exact h2
  have ha : ¬ (ReportReq.mk (some "alltime") req.start_date req.end_date).filter.getD
      "alltime" = "custom" := fun h => (by decide : ¬ "alltime" = "custom") h
  simp [sales_by_type, sales_over_time, generate_reports, hc, ha]

theorem C10_witness :
    (sales_by_type (ReportReq.mk (some "weekly") none none) (Store.mk [] [])
      = sales_by_type (ReportReq.mk (some "alltime") none none) (Store.mk [] []) ∧
    sales_over_time (ReportReq.mk (some "weekly") none none) (Store.mk [] [])
      = sales_over_time (ReportReq.mk (some "alltime") none none) (Store.mk [] []) ∧
    generate_reports (ReportReq.mk (some "weekly") none none) (Store.mk [] [])
      = generate_reports (ReportReq.mk (some "alltime") none none) (Store.mk [] [])) ∧
    (sales_by_type (ReportReq.mk (some "weekly") none none) (Store.mk [] [])
      = Except.ok (sales_by_type_rows (Store.mk [] []).sales) ∧
    sales_over_time (ReportReq.mk (some "weekly") none none) (Store.mk [] [])
      = Except.ok (sales_over_time_rows (Store.mk [] []).sales) ∧
    generate_reports (ReportReq.mk (some "weekly") none none) (Store.mk [] [])
      = Except.ok (generate_reports_rows (Store.mk [] []).sales)) :=
  C10_unknown_filter_acts_as_alltime (ReportReq.mk (some "weekly") none none)
    (Store.mk [] []) "weekly" rfl (by decide) (by decide)

theorem update_rewards_valid_eq (nm : String) (p : ℤ) (store : Store) (hpos : 0 < p) :
    update_rewards ⟨some nm, some (PointsVal.int p)⟩ store
      = ((if (store.customers.filter (fun c => c.name == nm)).length = 0
            then RewardResp.notFound else RewardResp.ok),
         ⟨store.sales, store.customers.map
            (fun c => if c.name = nm then ⟨c.name, c.points + p⟩ else c)⟩) := by
  simp only [update_rewards]
  rw [if_neg (not_le.mpr hpos)]
  split <;> rfl

theorem update_rewards_found (nm : String) (p : ℤ) (store : Store) (hpos : 0 < p)
    (hcount : (store.customers.filter (fun c => c.name == nm)).length ≠ 0) :
    update_rewards ⟨some nm, some (PointsVal.int p)⟩ store
      = (RewardResp.ok, ⟨store.sales, store.customers.map
          (fun c => if c.name = nm then ⟨c.name, c.points + p⟩ else c)⟩) := by
  rw [update_rewards_valid_eq nm p store hpos, if_neg hcount]

theorem update_rewards_no_match (nm : String) (p : ℤ) (store : Store) (hpos : 0 < p)
    (habs : ∀ c ∈ store.customers, c.name ≠ nm) :
    update_rewards ⟨some nm, some (PointsVal.int p)⟩ store
      = (RewardResp.notFound, store) := by
  have hfil : store.customers.filter (fun c => c.name == nm) = [] := by
    rw [List.filter_eq_nil_iff]
    intro c hc
    simp [habs c hc]
  have hmap : store.customers.map
      (fun c => if c.name = nm then ⟨c.name, c.points + p⟩ else c) = store.customers := by
    have h : ∀ c ∈ store.customers,
        (if c.name = nm then (⟨c.name, c.points + p⟩ : Customer) else c) = id c :=
      fun c hc => by rw [if_neg (habs c hc)]; rfl
    rw [List.map_congr_left h, List.map_id]
  rw [update_rewards_valid_eq nm p store hpos, hfil, hmap]
  rfl

theorem get_map_fin {α β : Type} (f : α → β) (l : List α)
    (hlen : (l.map f).length = l.length) (j : Fin l.length) :
    (l.map f).get (Fin.cast hlen.symm j) = f (l.get j) := by
  simp [List.get_eq_getElem, List.getElem_map]

/-- C2: for every reward request naming an existing customer with a valid
positive-integer points value, Apply Reward (POST `/api/reward`) answers
200, leaves the sales table unchanged, and maps the customers table
pointwise: the named customer gains exactly the requested points, every
other customer (and every name) is unchanged. -/
theorem C2_reward_increments_exactly (req : RewardReq) (store : Store)
    (nm : String) (p : ℤ) (i : Fin store.customers.length)
    (hn : req.name = some nm) (hp : req.points = some (PointsVal.int p)) (hpos : 0 < p)
    (hi : (store.customers.get i).name = nm)
    (huniq : (store.customers.map Customer.name).Nodup) :
    (update_rewards req store).1 = RewardResp.ok ∧
    (update_rewards req store).2.sales = store.sales ∧
    ∃ hlen : (update_rewards req store).2.customers.length = store.customers.length,
      ∀ j : Fin store.customers.length,
        ((update_rewards req store).2.customers.get (Fin.cast hlen.symm j)).name
            = (store.customers.get j).name ∧
        ((update_rewards req store).2.customers.get (Fin.cast hlen.symm j)).points
            = (store.customers.get j).points + (if j = i then p else 0) := by
  obtain ⟨rn, rp⟩ := req
  have hn' : rn = some nm := hn
  have hp' : rp = some (PointsVal.int p) := hp
  subst hn'
  subst hp'
  have hmem : store.customers.get i ∈ store.customers :=
    List.get_mem store.customers i.1 i.2
  have hfilmem : store.customers.get i ∈ store.customers.filter (fun c => c.name == nm) :=
    List.mem_filter.mpr ⟨hmem, by simpa using hi⟩
  have hcount : (store.customers.filter (fun c => c.name == nm)).length ≠ 0 := by
    intro h0
    rw [List.length_eq_zero] at h0
    rw [h0] at hfilmem
    exact absurd hfilmem (List.not_mem_nil _)
  have key : ∀ j : Fin store.customers.length, ((store.customers.get j).name = nm ↔ j = i) := by
    intro j
    constructor
    · intro hj
      have hcast : (Fin.cast (List.length_map store.customers Customer.name).symm j)
          = Fin.cast (List.length_map store.customers Customer.name).symm i := by
        rw [← huniq.get_inj_iff]
        rw [get_map_fin Customer.name store.customers
              (List.length_map store.customers Customer.name) j,
            get_map_fin Customer.name store.customers
              (List.length_map store.customers Customer.name) i,
            hj, hi]
      have hv := congrArg Fin.val hcast
      exact Fin.ext hv
    · intro hj
      rw [hj]
      exact hi
  rw [update_rewards_found nm p store hpos hcount]
  refine ⟨rfl, rfl, List.length_map store.customers _, ?_⟩
  intro j
  rw [get_map_fin (fun c => if c.name = nm then ⟨c.name, c.points + p⟩ else c)
        store.customers (List.length_map store.customers _) j]
  constructor
  · by_cases hcn : (store.customers.get j).name = nm
    · rw [if_pos hcn]
    · rw [if_neg hcn]
  · by_cases hj : j = i
    · rw [if_pos ((key j).mpr hj), if_pos hj]
    · rw [if_neg (fun h => hj ((key j).mp h)), if_neg hj, add_zero]

theorem C2_witness :
    (update_rewards (RewardReq.mk (some "Alice") (some (PointsVal.int 5)))
        (Store.mk [] [Customer.mk "Alice" 3, Customer.mk "Bob" 1])).1 = RewardResp.ok ∧
    (update_rewards (RewardReq.mk (some "Alice") (some (PointsVal.int 5)))
        (Store.mk [] [Customer.mk "Alice" 3, Customer.mk "Bob" 1])).2.sales
      = (Store.mk [] [Customer.mk "Alice" 3, Customer.mk "Bob" 1]).sales ∧
    ∃ hlen : (update_rewards (RewardReq.mk (some "Alice") (some (PointsVal.int 5)))
        (Store.mk [] [Customer.mk "Alice" 3, Customer.mk "Bob" 1])).2.customers.length
        = (Store.mk [] [Customer.mk "Alice" 3, Customer.mk "Bob" 1]).customers.length,
      ∀ j : Fin (Store.mk [] [Customer.mk "Alice" 3, Customer.mk "Bob" 1]).customers.length,
        (((update_rewards (RewardReq.mk (some "Alice") (some (PointsVal.int 5)))
            (Store.mk [] [Customer.mk "Alice" 3, Customer.mk "Bob" 1])).2.customers.get
              (Fin.cast hlen.symm j)).name
          = ((Store.mk [] [Customer.mk "Alice" 3, Customer.mk "Bob" 1]).customers.get j).name) ∧
        (((update_rewards (RewardReq.mk (some "Alice") (some (PointsVal.int 5)))
            (Store.mk [] [Customer.mk "Alice" 3, Customer.mk "Bob" 1])).2.customers.get
              (Fin.cast hlen.symm j)).points
          = ((Store.mk [] [Customer.mk "Alice" 3, Customer.mk "Bob" 1]).customers.get j).points
            + (if j = ⟨0, by decide⟩ then 5 else 0)) :=
  C2_reward_increments_exactly
    (RewardReq.mk (some "Alice") (some (PointsVal.int 5)))
    (Store.mk [] [Customer.mk "Alice" 3, Customer.mk "Bob" 1])
    "Alice" 5 ⟨0, by decide⟩ rfl rfl (by decide) rfl (by decide)

/-- C6: a reward request with a valid positive-integer points value whose
name matches no stored customer answers 404 and leaves the store unchanged:
no points change and no customer is created. -/
theorem C6_reward_unknown_customer (req : RewardReq) (store : Store)
    (nm : String) (p : ℤ)
    (hn : req.name = some nm) (hp : req.points = some (PointsVal.int p)) (hpos : 0 < p)
    (habs : ∀ c ∈ store.customers, c.name ≠ nm) :
    update_rewards req store = (RewardResp.notFound, store) ∧
    (update_rewards req store).1.status = 404 := by
  obtain ⟨rn, rp⟩ := req
  have hn' : rn = some nm := hn
  have hp' : rp = some (PointsVal.int p) := hp
  subst hn'
  subst hp'
  rw [update_rewards_no_match nm p store hpos habs]
  exact ⟨rfl, rfl⟩

theorem C6_witness :
    update_rewards (RewardReq.mk (some "Carol") (some (PointsVal.int 5)))
        (Store.mk [] [Customer.mk "Alice" 3])
      = (RewardResp.notFound, Store.mk [] [Customer.mk "Alice" 3]) ∧
    (update_rewards (RewardReq.mk (some "Carol") (some (PointsVal.int 5)))
        (Store.mk [] [Customer.mk "Alice" 3])).1.status = 404 :=
  C6_reward_unknown_customer (RewardReq.mk (some "Carol") (some (PointsVal.int 5)))
    (Store.mk [] [Customer.mk "Alice" 3]) "Carol" 5 rfl rfl (by decide) (by decide)

/-- C9: Add Customer stores names trimmed, while Apply Reward matches the
supplied name exactly; so in a store whose customer names carry no
surrounding whitespace, a valid reward request whose name differs from a
stored name only by surrounding whitespace answers 404 and changes
nothing. -/
theorem C9_reward_untrimmed_name_misses (req : RewardReq) (store : Store)
    (nm : String) (p : ℤ) (c : Customer)
    (hn : req.name = some nm) (hp : req.points = some (PointsVal.int p)) (hpos : 0 < p)
    (hc : c ∈ store.customers) (htrim : pyStrip nm = c.name) (hne : nm ≠ c.name)
    (hinv : ∀ d ∈ store.customers, pyStrip d.name = d.name) :
    update_rewards req store = (RewardResp.notFound, store) ∧
    (update_rewards req store).1.status = 404 := by
  obtain ⟨rn, rp⟩ := req
  have hn' : rn = some nm := hn
  have hp' : rp = some (PointsVal.int p) := hp
  subst hn'
  subst hp'
  have habs : ∀ d ∈ store.customers, d.name ≠ nm := by
    intro d hd hdn
    apply hne
    have h1 : pyStrip nm = nm := by rw [← hdn]; exact hinv d hd
    rw [← h1, htrim]
  rw [update_rewards_no_match nm p store hpos habs]
  exact ⟨rfl, rfl⟩

theorem C9_witness :
    update_rewards (RewardReq.mk (some " Alice") (some (PointsVal.int 5)))
        (Store.mk [] [Customer.mk "Alice" 3])
      = (RewardResp.notFound, Store.mk [] [Customer.mk "Alice" 3]) ∧
    (update_rewards (RewardReq.mk (some " Alice") (some (PointsVal.int 5)))
        (Store.mk [] [Customer.mk "Alice" 3])).1.status = 404 :=
  C9_reward_untrimmed_name_misses
    (RewardReq.mk (some " Alice") (some (PointsVal.int 5)))
    (Store.mk [] [Customer.mk "Alice" 3]) " Alice" 5 (Customer.mk "Alice" 3)
    rfl rfl (by decide) (by decide) (by decide) (by decide) (by decide)

/-- C4: an Append Sale request (POST `/api/sales`) in which all four fields
are present inserts exactly one new sale row carrying exactly the four
supplied values, answers 201, and leaves the rest of the store (all prior
sales and all customers) unchanged. -/
theorem C4_log_sale_appends_row (req : SaleReq) (store : Store)
    (ft : String) (q pr : ℚ) (d : String)
    (h1 : req.fuel_type = some ft) (h2 : req.quantity = some q)
    (h3 : req.price = some pr) (h4 : req.date = some d) :
    log_sale req store
      = (SaleResp.created,
         Store.mk (store.sales ++ [Sale.mk ft q pr d]) store.customers) ∧
    (log_sale req store).1.status = 201 := by
  obtain ⟨rf, rq, rp, rd⟩ := req
  have h1' : rf = some ft := h1
  have h2' : rq = some q := h2
  have h3' : rp = some pr := h3
  have h4' : rd = some d := h4
  subst h1'
  subst h2'
  subst h3'
  subst h4'
  exact ⟨rfl, rfl⟩

theorem C4_witness :
    log_sale (SaleReq.mk (some "diesel") (some 10) (some (5 / 2)) (some "2024-01-01"))
        (Store.mk [] [Customer.mk "Alice" 3])
      = (SaleResp.created,
         Store.mk ((Store.mk [] [Customer.mk "Alice" 3]).sales
            ++ [Sale.mk "diesel" 10 (5 / 2) "2024-01-01"])
           (Store.mk [] [Customer.mk "Alice" 3]).customers) ∧
    (log_sale (SaleReq.mk (some "diesel") (some 10) (some (5 / 2)) (some "2024-01-01"))
        (Store.mk [] [Customer.mk "Alice" 3])).1.status = 201 :=
  C4_log_sale_appends_row
    (SaleReq.mk (some "diesel") (some 10) (some (5 / 2)) (some "2024-01-01"))
    (Store.mk [] [Customer.mk "Alice" 3]) "diesel" 10 (5 / 2) "2024-01-01"
    rfl rfl rfl rfl

/-- C5: an Add Customer request (POST `/api/customers`) whose trimmed name
equals the name of an already-stored customer answers with the distinct
"already exists" outcome at status 200, and the store is unchanged (same
row count, same points). The store-side hypothesis is the data-model
invariant that stored names are non-empty. -/
theorem C5_add_customer_duplicate_noop (req : CustomerReq) (store : Store)
    (nm : String) (c : Customer)
    (hn : req.name = some nm) (hc : c ∈ store.customers) (heq : c.name = pyStrip nm)
    (hne : ∀ d ∈ store.customers, d.name ≠ "") :
    add_customer req store = (CustomerResp.alreadyExists, store) ∧
    (add_customer req store).1.status = 200 := by
  obtain ⟨rn⟩ := req
  have hn' : rn = some nm := hn
  subst hn'
  have hblank : ¬ pyStrip nm = "" := by
    rw [← heq]
    exact hne c hc
  have hany : (store.customers.any (fun d => d.name == pyStrip nm)) = true := by
    rw [List.any_eq_true]
    exact ⟨c, hc, by simp [heq]⟩
  simp only [add_customer]
  rw [if_neg hblank, if_pos hany]
  exact ⟨rfl, rfl⟩

theorem C5_witness :
    add_customer (CustomerReq.mk (some " Alice "))
        (Store.mk [] [Customer.mk "Alice" 7, Customer.mk "Bob" 1])
      = (CustomerResp.alreadyExists,
         Store.mk [] [Customer.mk "Alice" 7, Customer.mk "Bob" 1]) ∧
    (add_customer (CustomerReq.mk (some " Alice "))
        (Store.mk [] [Customer.mk "Alice" 7, Customer.mk "Bob" 1])).1.status = 200 :=
  C5_add_customer_duplicate_noop (CustomerReq.mk (some " Alice "))
    (Store.mk [] [Customer.mk "Alice" 7, Customer.mk "Bob" 1])
    " Alice " (Customer.mk "Alice" 7) rfl (by decide) (by decide) (by decide)

/-- C7 counterexample: the claim "every reward request whose points value
does not parse as a positive integer gets a 400 validation error" fails on
a points value of JSON type null (or array/object): `int(None)` raises
`TypeError`, which the handler catches only with the generic
`except Exception`, answering 500, not 400. -/
theorem C7_counterexample :
    (update_rewards (RewardReq.mk (some "Alice") (some PointsVal.typeError))
        (Store.mk [] [])).1.status = 500 ∧
    ¬ (update_rewards (RewardReq.mk (some "Alice") (some PointsVal.typeError))
        (Store.mk [] [])).1.status = 400 := by
  exact ⟨rfl, by decide⟩

/-- C7 (amended): for every reward request whose points value is a string
or number on which `int()` either raises ValueError or returns a
non-positive integer, Apply Reward answers 400 and performs no store
interaction (the store is unchanged and the response is the same for every
store); a points value on which `int()` raises TypeError instead yields
the generic 500 handler. -/
theorem C7_invalid_points_rejected (req : RewardReq) (store : Store) (pv : PointsVal)
    (hp : req.points = some pv) (hnt : pv ≠ PointsVal.typeError)
    (hbad : ∀ n : ℤ, pv = PointsVal.int n → n ≤ 0) :
    (update_rewards req store).1.status = 400 ∧
    (update_rewards req store).2 = store ∧
    ∀ store2 : Store, (update_rewards req store2).1 = (update_rewards req store).1 := by
  obtain ⟨rn, rp⟩ := req
  have hp' : rp = some pv := hp
  subst hp'
  cases rn with
  | none => exact ⟨rfl, rfl, fun store2 => rfl⟩
  | some nm =>
      cases pv with
      | valueError => exact ⟨rfl, rfl, fun store2 => rfl⟩
      | typeError => exact absurd rfl hnt
      | int n =>
          have hle : n ≤ 0 := hbad n rfl
          simp only [update_rewards]
          rw [if_pos hle]
          exact ⟨rfl, rfl, fun store2 => by rw [if_pos hle]⟩

theorem C7_witness :
    (update_rewards (RewardReq.mk (some "Alice") (some PointsVal.valueError))
        (Store.mk [] [Customer.mk "Alice" 3])).1.status = 400 ∧
    (update_rewards (RewardReq.mk (some "Alice") (some PointsVal.valueError))
        (Store.mk [] [Customer.mk "Alice" 3])).2 = Store.mk [] [Customer.mk "Alice" 3] ∧
    ∀ store2 : Store,
      (update_rewards (RewardReq.mk (some "Alice") (some PointsVal.valueError)) store2).1
        = (update_rewards (RewardReq.mk (some "Alice") (some PointsVal.valueError))
            (Store.mk [] [Customer.mk "Alice" 3])).1 :=
  C7_invalid_points_rejected (RewardReq.mk (some "Alice") (some PointsVal.valueError))
    (Store.mk [] [Customer.mk "Alice" 3]) PointsVal.valueError rfl (by decide)
    (fun n h => by cases h)

/-- C8: on the request path that acquires a store connection (a valid
Append Sale request), the handler acquires the connection and commits, but
never closes it: the psycopg2 connection context manager ends the
transaction without releasing the connection, and the handlers issue no
close call, so the connection is NOT released on the success exit path,
contradicting the specified release-on-every-exit-path behaviour. -/
theorem C8_connection_never_closed :
    log_sale_conn_events
        (SaleReq.mk (some "diesel") (some 10) (some (5 / 2)) (some "2024-01-01"))
      = [ConnEvent.acquired, ConnEvent.committed] ∧
    ConnEvent.acquired ∈ log_sale_conn_events
        (SaleReq.mk (some "diesel") (some 10) (some (5 / 2)) (some "2024-01-01")) ∧
    ConnEvent.closed ∉ log_sale_conn_events
        (SaleReq.mk (some "diesel") (some 10) (some (5 / 2)) (some "2024-01-01")) := by
  refine ⟨rfl, by decide, by decide⟩

end FuelApp
